import Mathlib

/-! Shallow embedding of the Risk & Decision Simulation Engine of this repository:
api/app/core/constants.py, api/app/agents/constraints.py, api/app/agents/simulation.py,
api/app/agents/risk.py, api/app/agents/coordinator.py, api/app/agents/team_simulator.py,
and backend/app/agents/debate_schema.py (the debate schema shared by the coordinator).
Python floats are modelled as exact rationals.  Random draws (numpy normal samples,
random.gauss, random.random, random.uniform) are modelled as explicit streams of
standard variates, so the process-global RNG state of the source becomes explicit
state passing.  Natural-language presentation strings that no numeric code path ever
reads back (LLM prompts, markdown reasoning tables, two-decimal score rendering) are
out of the numeric model, mirroring section boundaries of the engine. -/

-- ========================================================================
-- core/constants.py
-- ========================================================================

/-- RISK_WEIGHTS dict of core/constants.py. -/
def RISK_WEIGHTS (k : String) : ℚ :=
  if k = "blocked_dependency" then 0.4
  else if k = "deadline_proximity" then 0.3
  else if k = "overdue_ticket" then 0.3
  else 0

def RAMP_UP_PENALTY_DAYS : ℤ := 10

def URGENT_DEADLINE_THRESHOLD_DAYS : ℤ := 7

/-- RISK_THRESHOLDS dict of core/constants.py. -/
def RISK_THRESHOLDS (k : String) : ℚ :=
  if k = "LOW" then 0.3
  else if k = "MEDIUM" then 0.7
  else 1.0

/-- get_risk_level of core/constants.py: score ≤ 0.3 → LOW, score ≤ 0.7 → MEDIUM, else HIGH. -/
def get_risk_level (score : ℚ) : String :=
  if score ≤ RISK_THRESHOLDS "LOW" then "LOW"
  else if score ≤ RISK_THRESHOLDS "MEDIUM" then "MEDIUM"
  else "HIGH"

/-- Severity order on the three risk levels, used to state monotonicity. -/
def levelRank (l : String) : ℕ :=
  if l = "LOW" then 0 else if l = "MEDIUM" then 1 else 2

theorem RISK_THRESHOLDS_LOW_eq : RISK_THRESHOLDS "LOW" = 0.3 := by
  simp [RISK_THRESHOLDS]

theorem RISK_THRESHOLDS_MEDIUM_eq : RISK_THRESHOLDS "MEDIUM" = 0.7 := by
  simp [RISK_THRESHOLDS]

/-- C4: the risk level is a pure function of the score via the fixed thresholds:
0.3 → LOW, 0.30001 → MEDIUM, 0.7 → MEDIUM, 0.70001 → HIGH, and the mapping is
monotone non-decreasing in the score. -/
theorem risk_level_thresholds_and_monotone :
    get_risk_level 0.3 = "LOW" ∧
    get_risk_level 0.30001 = "MEDIUM" ∧
    get_risk_level 0.7 = "MEDIUM" ∧
    get_risk_level 0.70001 = "HIGH" ∧
    ∀ a b : ℚ, a ≤ b → levelRank (get_risk_level a) ≤ levelRank (get_risk_level b) := by
  refine ⟨?_, ?_, ?_, ?_, ?_⟩
  case refine_1 => unfold get_risk_level
                   rw [RISK_THRESHOLDS_LOW_eq, RISK_THRESHOLDS_MEDIUM_eq]; norm_num
  case refine_2 => unfold get_risk_level
                   rw [RISK_THRESHOLDS_LOW_eq, RISK_THRESHOLDS_MEDIUM_eq]; norm_num
  case refine_3 => unfold get_risk_level
                   rw [RISK_THRESHOLDS_LOW_eq, RISK_THRESHOLDS_MEDIUM_eq]; norm_num
  case refine_4 => unfold get_risk_level
                   rw [RISK_THRESHOLDS_LOW_eq, RISK_THRESHOLDS_MEDIUM_eq]; norm_num
  case refine_5 =>
    intro a b hab
    unfold get_risk_level
    rw [RISK_THRESHOLDS_LOW_eq, RISK_THRESHOLDS_MEDIUM_eq]
    split_ifs <;> simp_all [levelRank] <;> linarith

/-- Witness for C4: the monotonicity clause applied at 0 ≤ 1. -/
theorem risk_level_thresholds_and_monotone_witness :
    levelRank (get_risk_level 0) ≤ levelRank (get_risk_level 1) :=
  risk_level_thresholds_and_monotone.2.2.2.2 0 1 (by norm_num)

-- ========================================================================
-- The ad hoc context dictionary passed between agents (risk.py builds it;
-- constraints.py and simulation.py read it with dict.get defaults).
-- Optional fields model keys that may be absent from the dict.
-- ========================================================================

/-- The optional "signals" sub-dictionary (graph_signals output). -/
structure Signals where
  dependency_depth : Option ℚ
  skill_match_score : Option ℚ
  contention_score : Option ℚ

/-- The context dictionary.  `is_blocked` is read only for truthiness, so an
absent key and `False` coincide. -/
structure Context where
  is_blocked : Bool
  days_to_deadline : Option ℤ
  team_capacity_percent : Option ℤ
  blocker : Option String
  signals : Option Signals

/-- context.get("signals", \x7b\x7d).get("dependency_depth", 0) of simulation.py. -/
def depSignal (c : Context) : ℚ :=
  match c.signals with
  | none => 0
  | some s => s.dependency_depth.getD 0

/-- context.get("signals", \x7b\x7d).get("contention_score", 0) of simulation.py. -/
def contentionSignal (c : Context) : ℚ :=
  match c.signals with
  | none => 0
  | some s => s.contention_score.getD 0

/-- context.get("signals", \x7b\x7d).get("skill_match_score", 1.0) of simulation.py. -/
def skillSignal (c : Context) : ℚ :=
  match c.signals with
  | none => 1.0
  | some s => s.skill_match_score.getD 1.0

-- ========================================================================
-- agents/constraints.py — ConstraintAgent
-- ========================================================================

/-- The dict returned by ConstraintAgent.evaluate_intervention. -/
structure ConstraintResult where
  feasible : Bool
  penalty : ℚ
  reason : String
deriving DecidableEq

/-- ConstraintAgent.evaluate_intervention of agents/constraints.py.  Note the
source reads context.get("days_to_deadline", 7): the default is 7 days. -/
def evaluate_intervention (action_type : String) (c : Context) : ConstraintResult :=
  if action_type = "ADD_ENGINEER" then
    let days_to_deadline := c.days_to_deadline.getD 7
    if days_to_deadline < RAMP_UP_PENALTY_DAYS then
      ⟨false, 0.8, "Ramp-up time (avg " ++ toString RAMP_UP_PENALTY_DAYS
        ++ " days) exceeds deadline window."⟩
    else
      ⟨true, 0.2, "Standard onboarding cost applies."⟩
  else if action_type = "ESCALATE_DEPENDENCY" then
    ⟨true, 0.1, "Uses social capital but clears blockage."⟩
  else
    ⟨true, 0.0, "No constraints detected."⟩

/-- The AgentOpinion records produced by the agents (core/models.py). -/
structure AgentOpinion where
  agent : String
  claim : String
  confidence : ℚ
  evidence : List String
deriving DecidableEq

/-- ConstraintAgent.evaluate_all_constraints of agents/constraints.py.  The
source reads context.get("days_to_deadline", 14) here: the default is 14. -/
def evaluate_all_constraints (c : Context) : AgentOpinion :=
  let days_to_deadline := c.days_to_deadline.getD 14
  let team_capacity := c.team_capacity_percent.getD 100
  let urgent := days_to_deadline < URGENT_DEADLINE_THRESHOLD_DAYS
  let rampUnsafe := days_to_deadline < RAMP_UP_PENALTY_DAYS
  let overCap := team_capacity > 100
  let constraints_found : List String :=
    (if urgent then ["URGENT: Only " ++ toString days_to_deadline ++ " days to deadline"] else [])
    ++ (if rampUnsafe then ["Adding engineers is unsafe due to ramp-up time"] else [])
    ++ (if overCap then ["Team already over-capacity"] else [])
    ++ (if c.is_blocked then ["External dependency blocks progress"] else [])
  let evidence : List String :=
    (if urgent then ["Deadline pressure: " ++ toString days_to_deadline ++ "d remaining"] else [])
    ++ (if rampUnsafe then ["Ramp-up (" ++ toString RAMP_UP_PENALTY_DAYS ++ "d) > deadline ("
                             ++ toString days_to_deadline ++ "d)"] else [])
    ++ (if overCap then ["Team load at " ++ toString team_capacity ++ "%"] else [])
    ++ (if c.is_blocked then ["Blocked by: " ++ c.blocker.getD "Unknown"] else [])
  let confidence := min 0.9 (0.5 + (constraints_found.length : ℚ) * 0.15)
  let (claim, confidence) :=
    if constraints_found.length ≥ 2 then
      ("Multiple organizational constraints limit available options", confidence)
    else if constraints_found.length = 1 then
      (constraints_found.headD "", confidence)
    else
      ("No significant constraints detected", 0.3)
  ⟨"ConstraintAgent", claim, confidence,
   if evidence.isEmpty then ["No constraints detected"] else evidence⟩

/-- A context dictionary with no days_to_deadline key and no signals key
(the "data gaps" context of C6). -/
def ctxNoDeadline : Context := ⟨false, none, none, none, none⟩

/-- Counterexample to C6: the claim says a missing days_to_deadline is treated
as 30 everywhere it is read, making AddEngineer feasible with penalty 0.2 on a
context without a deadline; the code defaults it to 7 in
evaluate_intervention, so the result is infeasible with penalty 0.8. -/
theorem evaluate_intervention_missing_deadline_infeasible :
    (evaluate_intervention "ADD_ENGINEER" ctxNoDeadline).feasible = false ∧
    (evaluate_intervention "ADD_ENGINEER" ctxNoDeadline).penalty = 0.8 := by
  constructor <;> rfl

-- ========================================================================
-- agents/simulation.py — SimulationAgent (Monte Carlo engine)
-- ========================================================================

/-- One entry of the MC_DISTRIBUTIONS table: (mean, std-dev) pairs for
risk-reduction and cost-penalty. -/
structure MCDist where
  rr_mean : ℚ
  rr_std : ℚ
  cp_mean : ℚ
  cp_std : ℚ
deriving DecidableEq

/-- The MC_DISTRIBUTIONS dict of agents/simulation.py (None for keys absent
from the dict). -/
def MC_DISTRIBUTIONS (action : String) : Option MCDist :=
  if action = "ADD_ENGINEER" then some ⟨0.30, 0.10, 0.20, 0.05⟩
  else if action = "ESCALATE_DEPENDENCY" then some ⟨0.40, 0.12, 0.10, 0.04⟩
  else if action = "REDUCE_SCOPE" then some ⟨0.50, 0.15, 0.15, 0.05⟩
  else if action = "ACCEPT_DELAY" then some ⟨0.00, 0.02, 0.00, 0.01⟩
  else none

/-- The fallback distribution of the MC_DISTRIBUTIONS.get call in _monte_carlo. -/
def mcDefaultDist : MCDist := ⟨0, 0.05, 0, 0.02⟩

/-- MC_DISTRIBUTIONS.get(action, default) at the top of _monte_carlo:
an unknown action is silently given the fallback distribution. -/
def mcDistFor (action : String) : MCDist :=
  (MC_DISTRIBUTIONS action).getD mcDefaultDist

def N_SIMULATIONS : ℕ := 1000

/-- context.get("days_to_deadline", 30) as read inside _monte_carlo. -/
def daysToDeadline30 (c : Context) : ℤ :=
  c.days_to_deadline.getD 30

/-- The context-aware adjustment block of _monte_carlo (simulation.py lines
40-67), linearized: each step is one of the source's sequential mutations of
rr_mean / cp_mean. -/
def monteCarloParams (action : String) (c : Context) : MCDist :=
  let dist := mcDistFor action
  let rr0 := dist.rr_mean
  let cp0 := dist.cp_mean
  -- Signal 1: dependency depth penalizes ADD_ENGINEER
  let rr1 := if depSignal c > 2 ∧ action = "ADD_ENGINEER" then rr0 * 0.7 else rr0
  let cp1 := if depSignal c > 2 ∧ action = "ADD_ENGINEER" then cp0 * 1.2 else cp0
  -- Signal 2: contention boosts REDUCE_SCOPE
  let rr2 := if contentionSignal c > 3 ∧ action = "REDUCE_SCOPE" then rr1 * 1.2 else rr1
  -- Signal 3: low skill match boosts ADD_ENGINEER
  let rr3 := if skillSignal c < 0.8 ∧ action = "ADD_ENGINEER" then rr2 * 1.3 else rr2
  -- Hard override when escalating an actual blocker
  let rr4 := if action = "ESCALATE_DEPENDENCY" ∧ c.is_blocked then 0.55 else rr3
  -- Late ADD_ENGINEER is barely effective and very expensive
  let late := action = "ADD_ENGINEER" ∧ daysToDeadline30 c < 7
  let rr5 := if late then rr4 * 0.4 else rr4
  let cp2 := if late then cp1 * 1.8 else cp1
  ⟨rr5, dist.rr_std, cp2, dist.cp_std⟩

/-- np.clip(x, 0.0, 1.0) on one sample. -/
def clip01 (x : ℚ) : ℚ := max 0 (min x 1)

/-- Stable insertion of one element into a list sorted by the boolean
relation le (used to model Python list.sort / numpy sorting). -/
def pyInsert {α : Type} (le : α → α → Bool) (x : α) : List α → List α
  | [] => [x]
  | y :: ys => if le x y then x :: y :: ys else y :: pyInsert le x ys

/-- Stable sort by the boolean relation le. -/
def pySorted {α : Type} (le : α → α → Bool) (l : List α) : List α :=
  l.foldr (pyInsert le) []

/-- np.percentile with the default linear interpolation: index
q/100*(n-1) into the sorted samples, interpolating between the two
neighbouring order statistics. -/
def npPercentile (q : ℚ) (l : List ℚ) : ℚ :=
  let s := pySorted (fun a b => decide (a ≤ b)) l
  let n := s.length
  let k : ℚ := q / 100 * ((n : ℚ) - 1)
  let lo := s.getD (⌊k⌋).toNat 0
  let hi := s.getD (⌈k⌉).toNat 0
  lo + (k - (⌊k⌋ : ℚ)) * (hi - lo)

/-- The SimulationStatistics returned by _monte_carlo. -/
structure SimulationStatistics where
  mean_rr : ℚ
  p5_rr : ℚ
  p95_rr : ℚ
  mean_cp : ℚ
  prob_positive : ℚ
deriving DecidableEq

/-- The sampling-and-statistics half of _monte_carlo.  The numpy draws
np.random.normal(loc, scale, N) are modelled as loc + scale * z i where z is
the stream of standard-normal variates the global RNG would produce: the
risk-reduction array consumes z 0 .. z (N-1) and the cost-penalty array the
next N draws.  Samples are clipped to [0,1]; prob_positive counts trials
with net sample > 0.05. -/
def monteCarlo (action : String) (c : Context) (z : ℕ → ℚ) : SimulationStatistics :=
  let p := monteCarloParams action c
  let rr_samples := (List.range N_SIMULATIONS).map fun i => clip01 (p.rr_mean + p.rr_std * z i)
  let cp_samples := (List.range N_SIMULATIONS).map fun i =>
    clip01 (p.cp_mean + p.cp_std * z (N_SIMULATIONS + i))
  { mean_rr := rr_samples.sum / (N_SIMULATIONS : ℚ)
    p5_rr := npPercentile 5 rr_samples
    p95_rr := npPercentile 95 rr_samples
    mean_cp := cp_samples.sum / (N_SIMULATIONS : ℚ)
    prob_positive :=
      (((List.range N_SIMULATIONS).filter fun i =>
          decide (clip01 (p.rr_mean + p.rr_std * z i)
            - clip01 (p.cp_mean + p.cp_std * z (N_SIMULATIONS + i)) > 0.05)).length : ℚ)
        / (N_SIMULATIONS : ℚ) }

/-- One call to _monte_carlo under the source's process-global RNG: the call
consumes 2·N draws of the global stream and leaves the advanced stream behind.
There is no seed parameter anywhere in SimulationAgent. -/
def monteCarloCall (action : String) (c : Context) (g : ℕ → ℚ) :
    SimulationStatistics × (ℕ → ℚ) :=
  (monteCarlo action c g, fun i => g (2 * N_SIMULATIONS + i))

/-- C6 (amended): data gaps never raise, but the defaults are not the uniform
30-day deadline the claim states: a missing days_to_deadline is read as 7 in
evaluate_intervention, as 14 in evaluate_all_constraints, and as 30 in the
Monte Carlo adjustments; missing signals default to dependency_depth 0 and
contention_score 0, while skill_match_score defaults to 1.0 (not the zero
signal). -/
theorem data_gap_defaults (c : Context) (h : c.days_to_deadline = none) :
    evaluate_intervention "ADD_ENGINEER" c =
      evaluate_intervention "ADD_ENGINEER" { c with days_to_deadline := some 7 } ∧
    evaluate_all_constraints c =
      evaluate_all_constraints { c with days_to_deadline := some 14 } ∧
    (∀ a : String, monteCarloParams a c =
      monteCarloParams a { c with days_to_deadline := some 30 }) ∧
    (c.signals = none →
      depSignal c = 0 ∧ contentionSignal c = 0 ∧ skillSignal c = 1) := by
  refine ⟨?_, ?_, ?_, ?_⟩
  · simp [evaluate_intervention, h]
  · simp [evaluate_all_constraints, h]
  · intro a
    simp [monteCarloParams, daysToDeadline30, depSignal, contentionSignal, skillSignal, h]
  · intro hs
    refine ⟨by simp [depSignal, hs], by simp [contentionSignal, hs], ?_⟩
    simp [skillSignal, hs]
    norm_num

/-- Witness for C6 (amended): the evaluate_intervention default applied to the
concrete context without a deadline. -/
theorem data_gap_defaults_witness :
    evaluate_intervention "ADD_ENGINEER" ctxNoDeadline =
      evaluate_intervention "ADD_ENGINEER" { ctxNoDeadline with days_to_deadline := some 7 } :=
  (data_gap_defaults ctxNoDeadline rfl).1

/-- Python round(x, 3).  (At exact .0005 ties Python rounds half-to-even;
no modelled path exercises a tie.) -/
def round3 (x : ℚ) : ℚ := ((round (x * 1000) : ℤ) : ℚ) / 1000

/-- action.replace("_", " ").title() for the action identifiers. -/
def pyTitleWord (w : String) : String :=
  match w.data with
  | [] => ""
  | ch :: rest => String.mk (ch.toUpper :: rest.map Char.toLower)

def titleAction (a : String) : String :=
  String.intercalate " " (((a.replace "_" " ").splitOn " ").map pyTitleWord)

/-- A DecisionComparison row (core/models.py), minus the free-text reason
string, which is presentation output never read back by the engine. -/
structure DecisionComparison where
  action : String
  risk_reduction : ℚ
  cost : String
  feasible : Bool
  recommended : Bool
deriving DecidableEq

/-- The per-action body of SimulationAgent.generate_decision_comparison
(simulation.py lines 136-177): total penalty, net benefit, cost tier,
and the recommended flag. -/
def decisionFor (action : String) (constraint_result : ConstraintResult)
    (mc : SimulationStatistics) : DecisionComparison :=
  let total_penalty := mc.mean_cp + constraint_result.penalty
  let net_benefit := mc.mean_rr - total_penalty
  let cost := if total_penalty < 0.15 then "Low"
              else if total_penalty < 0.3 then "Medium"
              else "High"
  let recommended := constraint_result.feasible
    && decide (net_benefit > 0.05) && decide (mc.prob_positive > 0.5)
  { action := titleAction action
    risk_reduction := round3 mc.mean_rr
    cost := cost
    feasible := constraint_result.feasible
    recommended := recommended }

def possible_actions : List String :=
  ["ADD_ENGINEER", "ESCALATE_DEPENDENCY", "REDUCE_SCOPE", "ACCEPT_DELAY"]

/-- The loop of generate_decision_comparison: one constraint evaluation and
one _monte_carlo call per action, threading the global RNG stream. -/
def comparisonRows (c : Context) : List String → (ℕ → ℚ) → List DecisionComparison
  | [], _ => []
  | a :: rest, g =>
    let step := monteCarloCall a c g
    decisionFor a (evaluate_intervention a c) step.1 :: comparisonRows c rest step.2

/-- comparisons.sort(key=lambda x: (x.recommended, x.risk_reduction),
reverse=True): x goes before y iff its key is lexicographically ≥. -/
def comparisonBefore (x y : DecisionComparison) : Bool :=
  let rx : ℕ := if x.recommended then 1 else 0
  let ry : ℕ := if y.recommended then 1 else 0
  decide (ry < rx ∨ (ry = rx ∧ y.risk_reduction ≤ x.risk_reduction))

/-- SimulationAgent.generate_decision_comparison, comparison-list half. -/
def generate_decision_comparison (c : Context) (g : ℕ → ℚ) : List DecisionComparison :=
  pySorted comparisonBefore (comparisonRows c possible_actions g)

/-- C2: a DecisionComparison is recommended iff the constraint result is
feasible, net benefit (mean risk reduction minus mean cost penalty minus
constraint penalty) exceeds 0.05, and probability_positive exceeds 0.5;
hence recommended implies feasible. -/
theorem decision_recommended_iff (a : String) (cres : ConstraintResult)
    (mc : SimulationStatistics) :
    ((decisionFor a cres mc).recommended = true ↔
      (cres.feasible = true ∧
       mc.mean_rr - (mc.mean_cp + cres.penalty) > 0.05 ∧
       mc.prob_positive > 0.5)) ∧
    ((decisionFor a cres mc).recommended = true →
      (decisionFor a cres mc).feasible = true) := by
  constructor
  · simp [decisionFor, Bool.and_eq_true, decide_eq_true_eq, and_assoc]
  · intro hr
    have h := (by
      simpa [decisionFor, Bool.and_eq_true, decide_eq_true_eq, and_assoc] using hr :
      cres.feasible = true ∧
        mc.mean_rr - (mc.mean_cp + cres.penalty) > 0.05 ∧ mc.prob_positive > 0.5)
    simpa [decisionFor] using h.1

/-- Witness for C2: the recommended-implies-feasible clause at a concrete
feasible, high-benefit row. -/
theorem decision_recommended_iff_witness :
    (decisionFor "REDUCE_SCOPE" ⟨true, 0, "ok"⟩ ⟨0.5, 0, 0, 0.1, 0.9⟩).feasible = true :=
  (decision_recommended_iff "REDUCE_SCOPE" ⟨true, 0, "ok"⟩ ⟨0.5, 0, 0, 0.1, 0.9⟩).2
    ((decision_recommended_iff "REDUCE_SCOPE" ⟨true, 0, "ok"⟩ ⟨0.5, 0, 0, 0.1, 0.9⟩).1.mpr
      ⟨rfl, by norm_num, by norm_num⟩)

/-- Contexts for C9: identical except for the injected dependency_depth. -/
def ctxWithDepth (blocked : Bool) (dl cap : Option ℤ) (blk : Option String)
    (sk ct : Option ℚ) (d : ℚ) : Context :=
  ⟨blocked, dl, cap, blk, some ⟨some d, sk, ct⟩⟩

theorem clip01_mono {x y : ℚ} (h : x ≤ y) : clip01 x ≤ clip01 y :=
  max_le_max le_rfl (min_le_min h le_rfl)

/-- C9: for AddEngineer, with every other context field held equal,
dependency_depth 5 multiplies the pre-sampling risk-reduction mean by 0.7
(and the cost-penalty mean by 1.2), so the adjusted mean is strictly smaller
than with dependency_depth 0, and for every draw stream the simulated
mean_risk_reduction is no larger. -/
theorem dependency_depth_penalizes_add_engineer (blocked : Bool)
    (dl cap : Option ℤ) (blk : Option String) (sk ct : Option ℚ) :
    (monteCarloParams "ADD_ENGINEER" (ctxWithDepth blocked dl cap blk sk ct 5)).rr_mean
      = 0.7 * (monteCarloParams "ADD_ENGINEER" (ctxWithDepth blocked dl cap blk sk ct 0)).rr_mean ∧
    (monteCarloParams "ADD_ENGINEER" (ctxWithDepth blocked dl cap blk sk ct 5)).cp_mean
      = 1.2 * (monteCarloParams "ADD_ENGINEER" (ctxWithDepth blocked dl cap blk sk ct 0)).cp_mean ∧
    (monteCarloParams "ADD_ENGINEER" (ctxWithDepth blocked dl cap blk sk ct 5)).rr_mean
      < (monteCarloParams "ADD_ENGINEER" (ctxWithDepth blocked dl cap blk sk ct 0)).rr_mean ∧
    ∀ z : ℕ → ℚ,
      (monteCarlo "ADD_ENGINEER" (ctxWithDepth blocked dl cap blk sk ct 5) z).mean_rr
        ≤ (monteCarlo "ADD_ENGINEER" (ctxWithDepth blocked dl cap blk sk ct 0) z).mean_rr := by
  have key :
      (monteCarloParams "ADD_ENGINEER" (ctxWithDepth blocked dl cap blk sk ct 5)).rr_mean
        = 0.7 * (monteCarloParams "ADD_ENGINEER" (ctxWithDepth blocked dl cap blk sk ct 0)).rr_mean ∧
      (monteCarloParams "ADD_ENGINEER" (ctxWithDepth blocked dl cap blk sk ct 5)).cp_mean
        = 1.2 * (monteCarloParams "ADD_ENGINEER" (ctxWithDepth blocked dl cap blk sk ct 0)).cp_mean ∧
      (monteCarloParams "ADD_ENGINEER" (ctxWithDepth blocked dl cap blk sk ct 5)).rr_mean
        < (monteCarloParams "ADD_ENGINEER" (ctxWithDepth blocked dl cap blk sk ct 0)).rr_mean := by
    simp only [monteCarloParams, ctxWithDepth, depSignal, skillSignal, contentionSignal,
      daysToDeadline30, mcDistFor, MC_DISTRIBUTIONS, mcDefaultDist]
    norm_num
    split_ifs <;> simp_all <;> norm_num
  refine ⟨key.1, key.2.1, key.2.2, ?_⟩
  intro z
  have hm := le_of_lt key.2.2
  have hstd :
      (monteCarloParams "ADD_ENGINEER" (ctxWithDepth blocked dl cap blk sk ct 5)).rr_std
        = (monteCarloParams "ADD_ENGINEER" (ctxWithDepth blocked dl cap blk sk ct 0)).rr_std := rfl
  simp only [monteCarlo]
  rw [div_le_div_iff_of_pos_right (by norm_num [N_SIMULATIONS] : (0:ℚ) < (N_SIMULATIONS : ℚ))]
  apply List.sum_le_sum
  intro i _
  rw [hstd]
  exact clip01_mono (add_le_add_right hm _)

theorem clip01_of_mem_Icc {x : ℚ} (h0 : 0 ≤ x) (h1 : x ≤ 1) : clip01 x = x := by
  unfold clip01
  rw [min_eq_left h1, max_eq_right h0]

theorem sum_map_range_const {n : ℕ} {f : ℕ → ℚ} {v : ℚ} (h : ∀ i < n, f i = v) :
    ((List.range n).map f).sum = n * v := by
  induction n with
  | zero => simp
  | succ k ih =>
      rw [List.range_succ, List.map_append, List.sum_append,
          ih fun i hi => h i (Nat.lt_succ_of_lt hi)]
      simp [h k (Nat.lt_succ_self k)]
      ring

theorem monteCarloParams_default_add :
    monteCarloParams "ADD_ENGINEER" ctxNoDeadline = ⟨0.3, 0.1, 0.2, 0.05⟩ := by
  simp [monteCarloParams, ctxNoDeadline, depSignal, skillSignal, contentionSignal,
    daysToDeadline30, mcDistFor, MC_DISTRIBUTIONS]
  norm_num

/-- The global RNG stream at the start of the two back-to-back calls of C7:
the first call consumes draws 0 .. 2N-1 (all 0 here), the second call the
next 2N draws (all 1 here). -/
def g7 : ℕ → ℚ := fun i => if i < 2 * N_SIMULATIONS then 0 else 1

/-- Counterexample to C7: SimulationAgent exposes no seed to inject — its
draws come from the process-global RNG — so two back-to-back calls with the
identical action and context consume successive portions of the global
stream and return different SimulationStatistics (mean_rr 0.3 vs 0.4 on the
concrete stream g7). -/
theorem monte_carlo_consecutive_calls_differ :
    ((monteCarloCall "ADD_ENGINEER" ctxNoDeadline g7).1).mean_rr = 0.3 ∧
    ((monteCarloCall "ADD_ENGINEER" ctxNoDeadline
        (monteCarloCall "ADD_ENGINEER" ctxNoDeadline g7).2).1).mean_rr = 0.4 ∧
    (monteCarloCall "ADD_ENGINEER" ctxNoDeadline g7).1 ≠
      (monteCarloCall "ADD_ENGINEER" ctxNoDeadline
        (monteCarloCall "ADD_ENGINEER" ctxNoDeadline g7).2).1 := by
  have h1 : ((monteCarloCall "ADD_ENGINEER" ctxNoDeadline g7).1).mean_rr = 0.3 := by
    show (monteCarlo "ADD_ENGINEER" ctxNoDeadline g7).mean_rr = 0.3
    simp only [monteCarlo, monteCarloParams_default_add]
    rw [sum_map_range_const (v := 0.3) ?_]
    · norm_num [N_SIMULATIONS]
    · intro i hi
      have : g7 i = 0 := by
        unfold g7
        rw [if_pos (by omega : i < 2 * N_SIMULATIONS)]
      rw [this]
      norm_num
      exact clip01_of_mem_Icc (by norm_num) (by norm_num)
  have h2 : ((monteCarloCall "ADD_ENGINEER" ctxNoDeadline
      (monteCarloCall "ADD_ENGINEER" ctxNoDeadline g7).2).1).mean_rr = 0.4 := by
    show (monteCarlo "ADD_ENGINEER" ctxNoDeadline
      (fun i => g7 (2 * N_SIMULATIONS + i))).mean_rr = 0.4
    simp only [monteCarlo, monteCarloParams_default_add]
    rw [sum_map_range_const (v := 0.4) ?_]
    · norm_num [N_SIMULATIONS]
    · intro i hi
      have : g7 (2 * N_SIMULATIONS + i) = 1 := by
        unfold g7
        rw [if_neg (by omega : ¬ 2 * N_SIMULATIONS + i < 2 * N_SIMULATIONS)]
      rw [this]
      norm_num
      exact clip01_of_mem_Icc (by norm_num) (by norm_num)
  refine ⟨h1, h2, fun hcontra => ?_⟩
  have := congrArg SimulationStatistics.mean_rr hcontra
  rw [h1, h2] at this
  norm_num at this

/-- C7 (amended): the simulator has no injectable seed; its output is a pure
function of the first 2·N draws of the global RNG stream, so bit-identical
SimulationStatistics are obtained exactly when the global RNG state is
externally reset to the same point before each call. -/
theorem monte_carlo_reproducible_from_fixed_state (action : String) (c : Context)
    (g g' : ℕ → ℚ) (h : ∀ i < 2 * N_SIMULATIONS, g i = g' i) :
    monteCarlo action c g = monteCarlo action c g' := by
  have hrr : ((List.range N_SIMULATIONS).map fun i =>
      clip01 ((monteCarloParams action c).rr_mean + (monteCarloParams action c).rr_std * g i))
      = (List.range N_SIMULATIONS).map fun i =>
      clip01 ((monteCarloParams action c).rr_mean + (monteCarloParams action c).rr_std * g' i) := by
    apply List.map_congr_left
    intro i hi
    rw [h i (by simp at hi; omega)]
  have hcp : ((List.range N_SIMULATIONS).map fun i =>
      clip01 ((monteCarloParams action c).cp_mean
        + (monteCarloParams action c).cp_std * g (N_SIMULATIONS + i)))
      = (List.range N_SIMULATIONS).map fun i =>
      clip01 ((monteCarloParams action c).cp_mean
        + (monteCarloParams action c).cp_std * g' (N_SIMULATIONS + i)) := by
    apply List.map_congr_left
    intro i hi
    rw [h (N_SIMULATIONS + i) (by simp at hi; omega)]
  have hfil : ((List.range N_SIMULATIONS).filter fun i =>
      decide (clip01 ((monteCarloParams action c).rr_mean
          + (monteCarloParams action c).rr_std * g i)
        - clip01 ((monteCarloParams action c).cp_mean
          + (monteCarloParams action c).cp_std * g (N_SIMULATIONS + i)) > 0.05))
      = (List.range N_SIMULATIONS).filter fun i =>
      decide (clip01 ((monteCarloParams action c).rr_mean
          + (monteCarloParams action c).rr_std * g' i)
        - clip01 ((monteCarloParams action c).cp_mean
          + (monteCarloParams action c).cp_std * g' (N_SIMULATIONS + i)) > 0.05) := by
    apply List.filter_congr
    intro i hi
    rw [h i (by simp at hi; omega), h (N_SIMULATIONS + i) (by simp at hi; omega)]
  simp only [monteCarlo]
  rw [hrr, hcp, hfil]

/-- Witness for C7 (amended): reproducibility from an identical RNG state at
the concrete zero stream. -/
theorem monte_carlo_reproducible_from_fixed_state_witness :
    monteCarlo "ADD_ENGINEER" ctxNoDeadline (fun _ => 0)
      = monteCarlo "ADD_ENGINEER" ctxNoDeadline (fun _ => 0) :=
  monte_carlo_reproducible_from_fixed_state "ADD_ENGINEER" ctxNoDeadline
    (fun _ => 0) (fun _ => 0) (fun _ _ => rfl)

-- ========================================================================
-- agents/team_simulator.py — TeamCompositionSimulator
-- ========================================================================

/-- One entry of the ROLE_PROFILES table. -/
structure RoleProfile where
  velocity_boost : ℚ
  ramp_up_days : ℤ
  cost_per_day : ℚ
  blocked_resolution : ℚ
deriving DecidableEq

def midEngineerProfile : RoleProfile := ⟨0.12, 7, 450, 0.05⟩

/-- The ROLE_PROFILES dict of team_simulator.py (None for unknown roles). -/
def ROLE_PROFILES (role : String) : Option RoleProfile :=
  if role = "Senior Engineer" then some ⟨0.20, 3, 700, 0.15⟩
  else if role = "Mid Engineer" then some midEngineerProfile
  else if role = "Junior Engineer" then some ⟨0.05, 14, 250, 0.02⟩
  else if role = "Tech Lead" then some ⟨0.10, 5, 800, 0.25⟩
  else if role = "QA Engineer" then some ⟨0.08, 5, 400, 0.03⟩
  else if role = "DevOps Engineer" then some ⟨0.06, 5, 550, 0.20⟩
  else none

/-- ROLE_PROFILES.get(mutation.role, ROLE_PROFILES["Mid Engineer"]) at the top
of simulate_mutation: an unknown role silently becomes a Mid Engineer. -/
def roleProfileFor (role : String) : RoleProfile :=
  (ROLE_PROFILES role).getD midEngineerProfile

/-- A hypothetical team change (class TeamMutation). -/
structure TeamMutation where
  action : String
  role : String
  project_id : String
  member_name : Option String
  source_team : Option String
deriving DecidableEq

/-- The fields of the _get_project_context dict that simulate_mutation and its
helpers read.  The dict itself is assembled from the external graph store,
so it is an input here. -/
structure TeamContext where
  is_blocked : Bool
  blocked_count : ℤ
  active_tickets : ℤ
  total_tickets : ℤ
  days_to_deadline : ℤ
  team_size : ℤ
deriving DecidableEq

/-- TeamCompositionSimulator._estimate_baseline_risk. -/
def estimate_baseline_risk (c : TeamContext) : ℚ :=
  min (0.3 + (if c.is_blocked then 0.25 else 0)
        + (if c.days_to_deadline < 7 then 0.20 else 0)
        + (if c.active_tickets > 5 then 0.10 else 0)) 1.0

/-- The feasibility block of simulate_mutation (team_simulator.py lines
182-203).  For "add" both ifs run, so a team at the cap overwrites the
ramp-up warning; for "remove" they are elif-chained. -/
def mutationFeasibility (mutation : TeamMutation) (role_profile : RoleProfile)
    (ctx : TeamContext) : Bool × Option String :=
  if mutation.action = "add" then
    let afterRamp : Bool × Option String :=
      if role_profile.ramp_up_days ≥ ctx.days_to_deadline then
        (false, some ("Ramp-up time (" ++ toString role_profile.ramp_up_days
          ++ "d) exceeds deadline (" ++ toString ctx.days_to_deadline
          ++ "d). Member won\x27t be effective in time."))
      else (true, none)
    if ctx.team_size ≥ 8 then
      (false, some "Team already at maximum recommended size (8). Brooks\x27s Law applies.")
    else afterRamp
  else if mutation.action = "remove" then
    if ctx.team_size ≤ 1 then
      (false, some "Cannot remove the only team member.")
    else if ctx.team_size ≤ 2 ∧ ctx.active_tickets > 3 then
      (false, some "Removing a member leaves insufficient capacity for active tickets.")
    else (true, none)
  else (true, none)

/-- One "add" trial: returns (projected risk sample, velocity sample).
random.gauss(mu, sigma) is modelled as mu + sigma * z; random.random() as u;
random.uniform(a, b) as a + (b - a) * r. -/
def addTrial (p : RoleProfile) (ctx : TeamContext) (baseline z u r : ℚ) : ℚ × ℚ :=
  let velocity_boost := p.velocity_boost + p.velocity_boost * 0.3 * z
  let ramp_penalty := ((p.ramp_up_days : ℚ) / ((max ctx.days_to_deadline 1 : ℤ) : ℚ)) * 0.1
  let blocker_relief := if ctx.is_blocked ∧ u < p.blocked_resolution
                        then 0.10 + (0.25 - 0.10) * r else 0
  let net0 := max 0 (velocity_boost + blocker_relief - ramp_penalty)
  let net_rr := if ctx.team_size > 5
                then net0 * max 0.3 (1.0 - ((ctx.team_size : ℚ) - 5) * 0.15)
                else net0
  (max 0 (min 1 (baseline - net_rr)), velocity_boost - ramp_penalty)

/-- One "remove" trial. -/
def removeTrial (p : RoleProfile) (ctx : TeamContext) (baseline z _u r : ℚ) : ℚ × ℚ :=
  let velocity_loss := p.velocity_boost + p.velocity_boost * 0.2 * z
  let focus_bonus := if ctx.team_size > 5 then 0 + (0.05 - 0) * r else 0
  let net_increase := max 0 (velocity_loss - focus_bonus)
  (max 0 (min 1 (baseline + net_increase)), -velocity_loss + focus_bonus)

/-- One "transfer" trial (the else branch: any other action falls here too). -/
def transferTrial (p : RoleProfile) (ctx : TeamContext) (baseline z _u _r : ℚ) : ℚ × ℚ :=
  let velocity_boost := p.velocity_boost * 0.8 + p.velocity_boost * 0.3 * z
  let ramp_penalty := ((p.ramp_up_days : ℚ) / ((max ctx.days_to_deadline 1 : ℤ) : ℚ)) * 0.08
  let net_rr := max 0 (velocity_boost - ramp_penalty)
  (max 0 (min 1 (baseline - net_rr)), velocity_boost - ramp_penalty)

/-- The per-trial body of the Monte Carlo loop of simulate_mutation. -/
def mutationTrial (mutation : TeamMutation) (p : RoleProfile) (ctx : TeamContext)
    (baseline z u r : ℚ) : ℚ × ℚ :=
  if mutation.action = "add" then addTrial p ctx baseline z u r
  else if mutation.action = "remove" then removeTrial p ctx baseline z u r
  else transferTrial p ctx baseline z u r

/-- TeamCompositionSimulator._calc_confidence.  The float exponent
variance ** 0.5 is not rational, so the square root is an explicit oracle
argument sq; no modelled property depends on its values. -/
def calc_confidence (sq : ℚ → ℚ) (samples : List ℚ) (n : ℕ) : ℚ :=
  if n < 10 then 0.3
  else
    let mean := samples.sum / (n : ℚ)
    let variance := (samples.map fun s => (s - mean) ^ 2).sum / (n : ℚ)
    let std := sq variance
    min 0.95 (max 0.4 (1.0 - std * 2))

/-- The SimulationResult record of team_simulator.py, minus the markdown
reasoning text built by _build_reasoning (presentation output never read
back by the engine). -/
structure SimulationResult where
  mutation : TeamMutation
  baseline_risk : ℚ
  projected_risk : ℚ
  risk_delta : ℚ
  cost_delta : ℚ
  velocity_change : ℚ
  confidence : ℚ
  feasible : Bool
  warning : Option String
deriving DecidableEq

/-- TeamCompositionSimulator.simulate_mutation.  The external graph context
and the three random streams are explicit inputs; everything else follows
the source: feasibility flags are computed first and the Monte Carlo loop,
averages, cost and confidence are computed regardless of them. -/
def simulate_mutation (sq : ℚ → ℚ) (mutation : TeamMutation) (ctx : TeamContext)
    (baseline_risk_score : Option ℚ) (z u r : ℕ → ℚ) : SimulationResult :=
  let role_profile := roleProfileFor mutation.role
  let baseline := baseline_risk_score.getD (estimate_baseline_risk ctx)
  let fw := mutationFeasibility mutation role_profile ctx
  let risk_samples := (List.range N_SIMULATIONS).map fun i =>
    (mutationTrial mutation role_profile ctx baseline (z i) (u i) (r i)).1
  let velocity_samples := (List.range N_SIMULATIONS).map fun i =>
    (mutationTrial mutation role_profile ctx baseline (z i) (u i) (r i)).2
  let sorted_risk := pySorted (fun a b => decide (a ≤ b)) risk_samples
  let mean_risk := sorted_risk.sum / (N_SIMULATIONS : ℚ)
  let mean_velocity := velocity_samples.sum / (N_SIMULATIONS : ℚ)
  let cost_delta := if mutation.action = "add" then role_profile.cost_per_day * 30
                    else if mutation.action = "remove" then -(role_profile.cost_per_day * 30)
                    else role_profile.cost_per_day * 5
  let risk_delta := mean_risk - baseline
  let confidence_in_result := calc_confidence sq sorted_risk N_SIMULATIONS
  { mutation := mutation
    baseline_risk := baseline
    projected_risk := mean_risk
    risk_delta := risk_delta
    cost_delta := cost_delta
    velocity_change := mean_velocity
    confidence := confidence_in_result
    feasible := fw.1
    warning := fw.2 }

/-- The list-comprehension body of simulate_batch, threading the global
random streams across the successive simulate_mutation calls. -/
def runMutations (sq : ℚ → ℚ) (ctx : TeamContext) (baseline : Option ℚ) :
    List TeamMutation → (ℕ → ℚ) → (ℕ → ℚ) → (ℕ → ℚ) → List SimulationResult
  | [], _, _, _ => []
  | m :: rest, z, u, r =>
    simulate_mutation sq m ctx baseline z u r ::
      runMutations sq ctx baseline rest (fun i => z (N_SIMULATIONS + i))
        (fun i => u (N_SIMULATIONS + i)) (fun i => r (N_SIMULATIONS + i))

/-- TeamCompositionSimulator.simulate_batch: run every mutation, then rank by
risk_delta ascending (most beneficial first). -/
def simulate_batch (sq : ℚ → ℚ) (mutations : List TeamMutation) (ctx : TeamContext)
    (baseline : Option ℚ) (z u r : ℕ → ℚ) : List SimulationResult :=
  pySorted (fun a b => decide (a.risk_delta ≤ b.risk_delta))
    (runMutations sq ctx baseline mutations z u r)

def astrologerAdd : TeamMutation := ⟨"add", "Astrologer", "proj-1", none, none⟩

def quietCtx : TeamContext := ⟨false, 0, 2, 2, 30, 3⟩

/-- Counterexample to C5: an action outside the enumeration is not rejected —
MC_DISTRIBUTIONS.get silently hands back the fallback distribution — and an
unknown role is silently given the Mid Engineer profile, with which
simulate_mutation completes normally (monthly cost 450·30 = 13500). -/
theorem unknown_action_and_role_silently_defaulted :
    MC_DISTRIBUTIONS "LAUNCH_FIREWORKS" = none ∧
    mcDistFor "LAUNCH_FIREWORKS" = mcDefaultDist ∧
    ROLE_PROFILES "Astrologer" = none ∧
    roleProfileFor "Astrologer" = midEngineerProfile ∧
    (simulate_mutation (fun q => q) astrologerAdd quietCtx (some 0.5)
      (fun _ => 0) (fun _ => 0) (fun _ => 0)).cost_delta = 13500 := by
  refine ⟨rfl, rfl, rfl, rfl, ?_⟩
  simp only [simulate_mutation, astrologerAdd, roleProfileFor, ROLE_PROFILES, midEngineerProfile]
  simp
  norm_num

/-- C5 (amended): a call with an unknown action or role is not rejected and
raises no error; every action outside MC_DISTRIBUTIONS maps to the fallback
distribution and every role outside ROLE_PROFILES to the Mid Engineer
profile. -/
theorem unknown_enums_mapped_to_defaults (a r : String)
    (ha : MC_DISTRIBUTIONS a = none) (hr : ROLE_PROFILES r = none) :
    mcDistFor a = mcDefaultDist ∧ roleProfileFor r = midEngineerProfile := by
  constructor
  · simp [mcDistFor, ha]
  · simp [roleProfileFor, hr]

/-- Witness for C5 (amended): applied at the concrete unknown action and role. -/
theorem unknown_enums_mapped_to_defaults_witness :
    mcDistFor "LAUNCH_FIREWORKS" = mcDefaultDist ∧
    roleProfileFor "Astrologer" = midEngineerProfile :=
  unknown_enums_mapped_to_defaults "LAUNCH_FIREWORKS" "Astrologer" rfl rfl

theorem mutationFeasibility_warning (m : TeamMutation) (p : RoleProfile)
    (ctx : TeamContext) (h : (mutationFeasibility m p ctx).1 = false) :
    ∃ w, (mutationFeasibility m p ctx).2 = some w ∧ w ≠ "" := by
  simp only [mutationFeasibility] at h ⊢
  split_ifs at h ⊢ <;> exact ⟨_, rfl, by simp [String.ext_iff]⟩

theorem pyInsert_sum (le : ℚ → ℚ → Bool) (x : ℚ) (l : List ℚ) :
    (pyInsert le x l).sum = x + l.sum := by
  induction l with
  | nil => simp [pyInsert]
  | cons y ys ih =>
      unfold pyInsert
      split_ifs
      · simp
      · simp [ih]
        ring

theorem pySorted_sum (le : ℚ → ℚ → Bool) (l : List ℚ) :
    (pySorted le l).sum = l.sum := by
  induction l with
  | nil => rfl
  | cons y ys ih =>
      show (pyInsert le y (pySorted le ys)).sum = (y :: ys).sum
      rw [pyInsert_sum, ih]
      simp

/-- C10: simulate_mutation always returns a complete SimulationResult — the
projected risk is the Monte Carlo mean of the N trial outcomes and the risk
delta its difference from the baseline, computed whether or not the mutation
is feasible — and an infeasible result always carries a non-empty warning. -/
theorem simulate_mutation_complete (sq : ℚ → ℚ) (m : TeamMutation)
    (ctx : TeamContext) (b : Option ℚ) (z u r : ℕ → ℚ) :
    ((simulate_mutation sq m ctx b z u r).feasible = false →
      ∃ w, (simulate_mutation sq m ctx b z u r).warning = some w ∧ w ≠ "") ∧
    (simulate_mutation sq m ctx b z u r).projected_risk
      = ((List.range N_SIMULATIONS).map fun i =>
          (mutationTrial m (roleProfileFor m.role) ctx
            (b.getD (estimate_baseline_risk ctx)) (z i) (u i) (r i)).1).sum
        / (N_SIMULATIONS : ℚ) ∧
    (simulate_mutation sq m ctx b z u r).risk_delta
      = (simulate_mutation sq m ctx b z u r).projected_risk
        - (simulate_mutation sq m ctx b z u r).baseline_risk := by
  refine ⟨?_, ?_, ?_⟩
  · intro h
    exact mutationFeasibility_warning m (roleProfileFor m.role) ctx h
  · simp only [simulate_mutation]
    rw [pySorted_sum]
  · rfl

def removeSoloMutation : TeamMutation := ⟨"remove", "Senior Engineer", "proj-1", none, none⟩

def soloCtx : TeamContext := ⟨false, 0, 1, 1, 30, 1⟩

/-- Witness for C10: removing the only member of a one-person team is
infeasible and the returned result carries its warning. -/
theorem simulate_mutation_complete_witness :
    ∃ w, (simulate_mutation (fun q => q) removeSoloMutation soloCtx (some 0.5)
      (fun _ => 0) (fun _ => 0) (fun _ => 0)).warning = some w ∧ w ≠ "" :=
  (simulate_mutation_complete (fun q => q) removeSoloMutation soloCtx (some 0.5)
    (fun _ => 0) (fun _ => 0) (fun _ => 0)).1 rfl

-- ========================================================================
-- agents/risk.py — DeliveryRiskAgent.analyze, per-ticket scoring loop
-- ========================================================================

/-- A ticket row as returned by the graph query in risk.py.  The dueDate
string only ever feeds datetime.strptime and the (due - now).days difference,
so it is modelled by its parse outcome: none = no date on the ticket,
some none = malformed date string (ValueError, skipped), some (some d) =
parsed date lying d days from now. -/
structure Ticket where
  id : String
  title : String
  status : String
  priority : String
  due : Option (Option ℤ)
  blocker_id : Option String
  blocker_title : Option String
  blocker_status : Option String

/-- Python truthiness of an optional string (None and "" are falsy). -/
def pyTruthyStr (o : Option String) : Bool :=
  match o with
  | none => false
  | some s => !(s == "")

/-- The Pattern-1 guard of the loop: blocker_id and blocker_status != "Done"
(a None blocker_status also counts as unresolved in Python). -/
def hasUnresolvedBlocker (tk : Ticket) : Bool :=
  pyTruthyStr tk.blocker_id && !(tk.blocker_status == some "Done")

/-- The Pattern-1 contribution of one ticket to the raw risk score. -/
def ticketBlockerWeight (tk : Ticket) : ℚ :=
  if hasUnresolvedBlocker tk then
    RISK_WEIGHTS "blocked_dependency" + (if tk.priority = "High" then 0.1 else 0)
  else 0

/-- The Pattern-2 contribution: overdue (days_left < 0) or near-deadline
(0 ≤ days_left ≤ 7); malformed or missing dates contribute nothing. -/
def ticketDueWeight (tk : Ticket) : ℚ :=
  match tk.due with
  | some (some days_left) =>
      if days_left < 0 then RISK_WEIGHTS "overdue_ticket"
      else if days_left ≤ 7 then RISK_WEIGHTS "deadline_proximity"
      else 0
  | _ => 0

/-- The total contribution of one ticket to the raw (pre-normalization)
risk score: Done tickets are skipped. -/
def ticketRawWeight (tk : Ticket) : ℚ :=
  if tk.status = "Done" then 0 else ticketBlockerWeight tk + ticketDueWeight tk

/-- The raw accumulated risk_score of the scanning loop of analyze. -/
def rawRiskScore (tickets : List Ticket) : ℚ :=
  (tickets.map ticketRawWeight).sum

def isActive (tk : Ticket) : Bool := !(tk.status == "Done")

def isOverdue (tk : Ticket) : Bool :=
  match tk.due with
  | some (some d) => decide (d < 0)
  | _ => false

def isNearDeadline (tk : Ticket) : Bool :=
  match tk.due with
  | some (some d) => decide (0 ≤ d ∧ d ≤ 7)
  | _ => false

/-- The post-loop normalization of analyze: blend 60% raw strength with 40%
issue prevalence, then clip to 1. -/
def normalizeRiskScore (tickets : List Ticket) : ℚ :=
  let raw := rawRiskScore tickets
  let total_active := (tickets.filter isActive).length
  let flagged := (tickets.filter fun tk => isActive tk && hasUnresolvedBlocker tk).length
    + (tickets.filter fun tk => isActive tk && isOverdue tk).length
    + (tickets.filter fun tk => isActive tk && isNearDeadline tk).length
  let blended := if 0 < total_active ∧ 0 < raw
    then raw * 0.6 + min raw 1.0 * ((flagged : ℚ) / ((max total_active 1 : ℕ) : ℚ)) * 0.4
    else raw
  min blended 1.0

def blockedHighTicket : Ticket :=
  ⟨"T1", "Blocked critical work", "InProgress", "High", none,
   some "T2", some "Upstream dependency", some "InProgress"⟩

/-- C3: per active ticket, an unresolved blocker contributes 0.4 plus 0.1
when the ticket is High priority (a single blocked High-priority active
ticket scores exactly 0.5 raw); an overdue non-blocked ticket contributes
exactly 0.3; a non-overdue ticket due within 7 days contributes exactly 0.3;
a Done ticket contributes 0. -/
theorem ticket_raw_weight_contributions :
    (∀ tk : Ticket, hasUnresolvedBlocker tk = true →
      ticketBlockerWeight tk = 0.4 + (if tk.priority = "High" then 0.1 else 0)) ∧
    rawRiskScore [blockedHighTicket] = 0.5 ∧
    (∀ (tk : Ticket) (d : ℤ), tk.status ≠ "Done" → hasUnresolvedBlocker tk = false →
      tk.due = some (some d) → d < 0 → ticketRawWeight tk = 0.3) ∧
    (∀ (tk : Ticket) (d : ℤ), tk.status ≠ "Done" → hasUnresolvedBlocker tk = false →
      tk.due = some (some d) → 0 ≤ d → d ≤ 7 → ticketRawWeight tk = 0.3) ∧
    (∀ tk : Ticket, tk.status = "Done" → ticketRawWeight tk = 0) := by
  refine ⟨?_, ?_, ?_, ?_, ?_⟩
  · intro tk hb
    simp [ticketBlockerWeight, hb, RISK_WEIGHTS]
  · simp [rawRiskScore, ticketRawWeight, blockedHighTicket, ticketBlockerWeight,
      ticketDueWeight, hasUnresolvedBlocker, pyTruthyStr, RISK_WEIGHTS]
    norm_num
  · intro tk d hst hb hdue hd
    simp [ticketRawWeight, hst, ticketBlockerWeight, hb, ticketDueWeight, hdue, hd, RISK_WEIGHTS]
  · intro tk d hst hb hdue hd0 hd7
    have hnot : ¬ d < 0 := not_lt.mpr hd0
    simp [ticketRawWeight, hst, ticketBlockerWeight, hb, ticketDueWeight, hdue, hnot, hd7,
      RISK_WEIGHTS]
  · intro tk hst
    simp [ticketRawWeight, hst]

/-- Witness for C3: the blocker clause applied to the concrete blocked
High-priority ticket. -/
theorem ticket_raw_weight_contributions_witness :
    ticketBlockerWeight blockedHighTicket
      = 0.4 + (if blockedHighTicket.priority = "High" then 0.1 else 0) :=
  ticket_raw_weight_contributions.1 blockedHighTicket rfl

-- ========================================================================
-- backend/app/agents/debate_schema.py + agents/coordinator.py — DebateCoordinator
-- ========================================================================

inductive AgentVote
  | PROPOSE
  | AGREE
  | CHALLENGE
  | VETO
  | ABSTAIN
deriving DecidableEq

/-- AgentResponse of debate_schema.py (optional fields default to None). -/
structure AgentResponse where
  agent_name : String
  vote : AgentVote
  claim : String
  reasoning : String
  confidence : ℚ
  evidence : List String
  risk_reduction_projection : Option ℚ
  cost_projection : Option ℚ
  feasible : Bool
  proposed_action : Option String

/-- Python str formatting of an optional value: None renders as "None". -/
def pyStr (o : Option String) : String :=
  match o with
  | none => "None"
  | some s => s

/-- DebateCoordinator._arbitrate (coordinator.py lines 72-98).  The
vetoes/challenges list-comprehension plus truthiness check plus [0] access
is the first matching element; an empty log would raise IndexError at
log[0], modelled as none. -/
def arbitrate (log : List AgentResponse) : Option String :=
  match log.find? fun rsp => rsp.vote = AgentVote.VETO with
  | some v => some ("Action Blocked by " ++ v.agent_name ++ ": " ++ v.claim)
  | none =>
    match log.find? fun rsp => rsp.vote = AgentVote.CHALLENGE with
    | some ch => some ("Action Challenged: " ++ ch.claim ++ " - Requires Review")
    | none =>
      match log with
      | [] => none
      | proposer :: _ =>
        if proposer.vote = AgentVote.PROPOSE then
          some ("Approved: " ++ pyStr proposer.proposed_action)
        else
          some "Status Quo Maintained (No Action Needed)"

/-- The proposed_action expression of run_debate (coordinator.py line 46):
the first recommended action, or "Monitor" when the list is empty. -/
def run_debate_proposed_action (recommended_actions : List String) : String :=
  match recommended_actions with
  | a :: _ => a
  | [] => "Monitor"

def proposeTurn : AgentResponse :=
  ⟨"RiskAgent", AgentVote.PROPOSE, "High risk", "Risk Score: 0.85.", 0.85,
   [], none, none, true, some "X"⟩

def challengeTurn : AgentResponse :=
  ⟨"FinanceAgent", AgentVote.CHALLENGE, "claim", "Too expensive.", 0.85,
   [], none, none, true, some "X"⟩

/-- Counterexample to C1: on the turn sequence [Propose("X"),
Challenge("claim")] the code produces "Action Challenged: claim - Requires
Review" with an ASCII hyphen, not the em-dash string "Action Challenged:
claim — Requires Review" the claim fixes verbatim. -/
theorem arbitrate_challenge_string_differs :
    arbitrate [proposeTurn, challengeTurn]
      = some "Action Challenged: claim - Requires Review" ∧
    arbitrate [proposeTurn, challengeTurn]
      ≠ some "Action Challenged: claim — Requires Review" := by
  constructor
  · rfl
  · intro h
    rw [show arbitrate [proposeTurn, challengeTurn]
          = some "Action Challenged: claim - Requires Review" from rfl] at h
    simp [String.ext_iff] at h

/-- C1 (amended): arbitration resolves a non-empty turn sequence by the fixed
rule order — first veto wins with "Action Blocked by \x7bagent\x7d: \x7bclaim\x7d";
else first challenge wins with "Action Challenged: \x7bclaim\x7d - Requires
Review" (ASCII hyphen); else a proposing first turn yields "Approved:
\x7bproposed_action\x7d"; else "Status Quo Maintained (No Action Needed)". -/
theorem arbitrate_rule_order (log : List AgentResponse) :
    (∀ v, (log.find? fun rsp => rsp.vote = AgentVote.VETO) = some v →
      arbitrate log = some ("Action Blocked by " ++ v.agent_name ++ ": " ++ v.claim)) ∧
    ((log.find? fun rsp => rsp.vote = AgentVote.VETO) = none →
      ∀ ch, (log.find? fun rsp => rsp.vote = AgentVote.CHALLENGE) = some ch →
        arbitrate log = some ("Action Challenged: " ++ ch.claim ++ " - Requires Review")) ∧
    ((log.find? fun rsp => rsp.vote = AgentVote.VETO) = none →
      (log.find? fun rsp => rsp.vote = AgentVote.CHALLENGE) = none →
      ∀ p rest, log = p :: rest →
        (p.vote = AgentVote.PROPOSE →
          arbitrate log = some ("Approved: " ++ pyStr p.proposed_action)) ∧
        (p.vote ≠ AgentVote.PROPOSE →
          arbitrate log = some "Status Quo Maintained (No Action Needed)")) := by
  refine ⟨?_, ?_, ?_⟩
  · intro v hv
    unfold arbitrate
    rw [hv]
  · intro hv ch hch
    unfold arbitrate
    rw [hv, hch]
  · intro hv hch p rest hlog
    constructor
    · intro hp
      unfold arbitrate
      rw [hv, hch, hlog]
      simp [hp]
    · intro hp
      unfold arbitrate
      rw [hv, hch, hlog]
      simp [hp]

/-- Witness for C1 (amended): the veto clause at a concrete two-turn log. -/
theorem arbitrate_rule_order_witness :
    arbitrate [proposeTurn,
      ⟨"ConstraintAgent", AgentVote.VETO, "reason", "", 0.9, [], none, none, false, none⟩]
      = some ("Action Blocked by " ++ "ConstraintAgent" ++ ": " ++ "reason") :=
  (arbitrate_rule_order [proposeTurn,
      ⟨"ConstraintAgent", AgentVote.VETO, "reason", "", 0.9, [], none, none, false, none⟩]).1
    ⟨"ConstraintAgent", AgentVote.VETO, "reason", "", 0.9, [], none, none, false, none⟩ rfl

def malformedProposer : AgentResponse :=
  ⟨"RiskAgent", AgentVote.PROPOSE, "High risk", "", 0.85, [], none, none, true, none⟩

/-- Counterexample to C8: a proposing turn with no proposed_action does not
yield "Approved: Monitor" — _arbitrate formats the missing value the Python
way and returns "Approved: None". -/
theorem arbitrate_missing_action_not_monitor :
    arbitrate [malformedProposer] = some "Approved: None" ∧
    arbitrate [malformedProposer] ≠ some "Approved: Monitor" := by
  constructor
  · rfl
  · intro h
    rw [show arbitrate [malformedProposer] = some "Approved: None" from rfl] at h
    simp [String.ext_iff] at h

/-- C8 (amended): arbitration never crashes on a malformed turn — it is total
on non-empty logs — and a proposer with a missing proposed_action resolves to
"Approved: None"; the "Monitor" default is applied earlier, when run_debate
builds the risk proposal from an empty recommendation list. -/
theorem arbitrate_total_and_missing_action (p : AgentResponse) (rest : List AgentResponse) :
    ((arbitrate (p :: rest)).isSome = true) ∧
    (((p :: rest).find? fun rsp => rsp.vote = AgentVote.VETO) = none →
      ((p :: rest).find? fun rsp => rsp.vote = AgentVote.CHALLENGE) = none →
      p.vote = AgentVote.PROPOSE → p.proposed_action = none →
      arbitrate (p :: rest) = some "Approved: None") ∧
    run_debate_proposed_action [] = "Monitor" := by
  refine ⟨?_, ?_, rfl⟩
  · unfold arbitrate
    cases hv : (p :: rest).find? fun rsp => rsp.vote = AgentVote.VETO with
    | some v => rfl
    | none =>
      cases hch : (p :: rest).find? fun rsp => rsp.vote = AgentVote.CHALLENGE with
      | some ch => rfl
      | none =>
        by_cases hp : p.vote = AgentVote.PROPOSE <;> simp [hp]
  · intro hv hch hp hact
    unfold arbitrate
    rw [hv, hch]
    simp [hp, hact, pyStr]

/-- Witness for C8 (amended): applied at the concrete malformed proposer. -/
theorem arbitrate_total_and_missing_action_witness :
    arbitrate [malformedProposer] = some "Approved: None" :=
  (arbitrate_total_and_missing_action malformedProposer []).2.1 rfl rfl rfl rfl

/-- Witness for C9: the sample-mean comparison at the all-zero draw stream. -/
theorem dependency_depth_penalizes_add_engineer_witness :
    (monteCarlo "ADD_ENGINEER" (ctxWithDepth false none none none none none 5)
        (fun _ => 0)).mean_rr
      ≤ (monteCarlo "ADD_ENGINEER" (ctxWithDepth false none none none none none 0)
        (fun _ => 0)).mean_rr :=
  (dependency_depth_penalizes_add_engineer false none none none none none).2.2.2 (fun _ => 0)
